import Mathlib

/-!
Shallow embedding of the Trade Ledger Engine of
`stock-trading-simulator-051425/backend/database.js`.

Monetary values (`price`, `balance`, `average_price`, `total_amount`) are
embedded as `ℚ` (the source uses JS numbers; all claim-relevant arithmetic is
exact), quantities as `Int` (the HTTP route applies `parseInt`), timestamps and
password hashes as opaque `String`s threaded in as parameters.

The in-memory fallback store (`memoryStore`) is a record of a user list, a
portfolio map keyed by `(userId, symbol)` (the JS key is the string
`userId-symbol`, which determines the pair uniquely since a numeric id contains
no dash), and a transaction list.  JS object/array mutation is embedded as
first-match update on association lists, matching reference semantics of
`find` / property access.

The SQLite path is embedded with standard transactional semantics: the
statements between `BEGIN` and `COMMIT` are applied in program order to a draft
state; every `ROLLBACK` path returns the pre-call state.  The table primary
keys (`users.id`, `(portfolios.user_id, portfolios.symbol)`) make row updates
first-match updates as well.  A `txInsertFails` flag models a storage-level
failure of the transaction-record `INSERT` (line 316), whose callback issues
`ROLLBACK` and rejects.
-/

deriving instance DecidableEq for Except

namespace StockSim

inductive Side
  | BUY
  | SELL
  deriving DecidableEq, Repr

/-- A row of `memoryStore.users` / the `users` table (database.js lines 53-55,
62-68). -/
structure User where
  id : Nat
  username : String
  password : String
  balance : ℚ
  created_at : String
  deriving DecidableEq, Repr

/-- A value of `memoryStore.portfolios` / a row of the `portfolios` table
(database.js lines 71-78, 230). -/
structure Position where
  user_id : Nat
  symbol : String
  quantity : Int
  average_price : ℚ
  updated_at : String
  deriving DecidableEq, Repr

/-- A row of `memoryStore.transactions` / the `transactions` table
(database.js lines 81-90, 248). -/
structure Transaction where
  id : Nat
  user_id : Nat
  symbol : String
  type : Side
  price : ℚ
  quantity : Int
  total_amount : ℚ
  timestamp : String
  deriving DecidableEq, Repr

/-- The store: `memoryStore` (database.js lines 22-26), or the contents of the
three SQLite tables.  `portfolios` is an association list keyed by
`(userId, symbol)`, the decoding of the JS key `` `${userId}-${symbol}` ``. -/
structure Store where
  users : List User
  portfolios : List ((Nat × String) × Position)
  transactions : List Transaction
  deriving DecidableEq, Repr

/-- Successful result of `executeTrade`.  Memory mode returns
`{ success: true, balance, transaction: tx }` (line 250); SQLite mode resolves
`{ success: true, balance }` with no `transaction` property (line 324), hence
the `Option`. -/
structure TradeOk where
  success : Bool
  balance : ℚ
  transaction : Option Transaction
  deriving DecidableEq, Repr

/-- The errors thrown/rejected by `executeTrade`: `"User not found"`,
`"Insufficient funds"`, `"Insufficient holdings"` and a storage-level error of
the transaction `INSERT` (SQLite mode, line 317). -/
inductive TradeError
  | userNotFound
  | insufficientFunds
  | insufficientHoldings
  | storageFailure
  deriving DecidableEq, Repr

/-- `memoryStore.users.find(u => u.id === userId)` (line 221), and the SQLite
`SELECT ... FROM users WHERE id = ?` (line 260, unique primary key). -/
def findUser (users : List User) (userId : Nat) : Option User :=
  users.find? (fun u => u.id = userId)

/-- `user.balance = b` on the object returned by `find` — first-match update.
Also the SQLite `UPDATE users SET balance = ? WHERE id = ?` (unique key). -/
def setUserBalance : List User → Nat → ℚ → List User
  | [], _, _ => []
  | u :: rest, userId, b =>
    if u.id = userId then { u with balance := b } :: rest
    else u :: setUserBalance rest userId b

/-- `memoryStore.portfolios[key]` lookup, and the SQLite
`SELECT * FROM portfolios WHERE user_id = ? AND symbol = ?` (unique key). -/
def lookupPortfolio (ps : List ((Nat × String) × Position)) (k : Nat × String) :
    Option Position :=
  (ps.find? (fun e => e.1 = k)).map (fun e => e.2)

/-- Assignment to an existing key of the `portfolios` object — first-match
update.  Also the SQLite `UPDATE portfolios ... WHERE user_id = ? AND
symbol = ?` (unique key). -/
def setPortfolio : List ((Nat × String) × Position) → Nat × String → Position →
    List ((Nat × String) × Position)
  | [], _, _ => []
  | e :: rest, k, p =>
    if e.1 = k then (k, p) :: rest
    else e :: setPortfolio rest k p

/-- Creation of a fresh key in the `portfolios` object (line 230), and the
SQLite `INSERT INTO portfolios ...` (line 282). -/
def insertPortfolio (ps : List ((Nat × String) × Position)) (k : Nat × String)
    (p : Position) : List ((Nat × String) × Position) :=
  ps ++ [(k, p)]

/-- `delete memoryStore.portfolios[key]` (line 244), and the SQLite
`DELETE FROM portfolios WHERE user_id = ? AND symbol = ?` (line 305). -/
def removePortfolio (ps : List ((Nat × String) × Position)) (k : Nat × String) :
    List ((Nat × String) × Position) :=
  ps.eraseP (fun e => e.1 = k)

/-- `initMemoryData` (database.js lines 50-56): the transient store seeded with
the single default user `demo`, id 1, balance 100000.00. -/
def initMemoryData (passHash now : String) : Store :=
  { users := [{ id := 1, username := "demo", password := passHash,
                balance := 100000, created_at := now }],
    portfolios := [],
    transactions := [] }

/-- `createUser` in memory mode (database.js lines 165-168): id is
`memoryStore.users.length + 1`, balance 100000.00. -/
def createUser (store : Store) (username passHash now : String) : User × Store :=
  let newUser : User :=
    { id := store.users.length + 1, username := username, password := passHash,
      balance := 100000, created_at := now }
  (newUser, { store with users := store.users ++ [newUser] })

/-- `getPortfolio` in memory mode (database.js line 185):
`Object.values(memoryStore.portfolios).filter(p => p.user_id === userId)`,
kept with their keys for comparison with portfolio operations. -/
def positionsOf (store : Store) (userId : Nat) :
    List ((Nat × String) × Position) :=
  store.portfolios.filter (fun e => e.2.user_id = userId)

/-- The transaction records of one account in submission order:
`memoryStore.transactions.filter(t => t.user_id === userId)` (line 197,
before the display-only `reverse`). -/
def transactionsOf (store : Store) (userId : Nat) : List Transaction :=
  store.transactions.filter (fun t => t.user_id = userId)

/-- `executeTrade`, memory mode (database.js lines 215-251).  Returns the
outcome (`Except.error` embeds `throw`) together with the post-call store;
the JS code performs no mutation before any of its `throw`s, so every error
branch returns the store it was given. -/
def executeTrade (store : Store) (userId : Nat) (symbol : String) (type : Side)
    (price : ℚ) (quantity : Int) (now : String) :
    Except TradeError TradeOk × Store :=
  let total : ℚ := price * (quantity : ℚ)
  match findUser store.users userId with
  | none => (Except.error TradeError.userNotFound, store)
  | some user =>
    match type with
    | Side.BUY =>
      if user.balance < total then
        (Except.error TradeError.insufficientFunds, store)
      else
        let newBalance := user.balance - total
        let users' := setUserBalance store.users userId newBalance
        let key : Nat × String := (userId, symbol)
        let ps0 :=
          match lookupPortfolio store.portfolios key with
          | none =>
            insertPortfolio store.portfolios key
              { user_id := userId, symbol := symbol, quantity := 0,
                average_price := 0, updated_at := now }
          | some _ => store.portfolios
        let p := (lookupPortfolio ps0 key).getD
          { user_id := userId, symbol := symbol, quantity := 0,
            average_price := 0, updated_at := now }
        let oldTotalVal : ℚ := (p.quantity : ℚ) * p.average_price
        let newQty := p.quantity + quantity
        let newAvg : ℚ := (oldTotalVal + total) / (newQty : ℚ)
        let ps' := setPortfolio ps0 key
          { p with quantity := newQty, average_price := newAvg,
                   updated_at := now }
        let tx : Transaction :=
          { id := store.transactions.length + 1, user_id := userId,
            symbol := symbol, type := type, price := price,
            quantity := quantity, total_amount := total, timestamp := now }
        (Except.ok { success := true, balance := newBalance,
                     transaction := some tx },
         { users := users', portfolios := ps',
           transactions := store.transactions ++ [tx] })
    | Side.SELL =>
      let key : Nat × String := (userId, symbol)
      match lookupPortfolio store.portfolios key with
      | none => (Except.error TradeError.insufficientHoldings, store)
      | some p =>
        if p.quantity < quantity then
          (Except.error TradeError.insufficientHoldings, store)
        else
          let newQty := p.quantity - quantity
          let newBalance := user.balance + total
          let users' := setUserBalance store.users userId newBalance
          let ps' :=
            if newQty = 0 then removePortfolio store.portfolios key
            else setPortfolio store.portfolios key
              { p with quantity := newQty, updated_at := now }
          let tx : Transaction :=
            { id := store.transactions.length + 1, user_id := userId,
              symbol := symbol, type := type, price := price,
              quantity := quantity, total_amount := total, timestamp := now }
          (Except.ok { success := true, balance := newBalance,
                       transaction := some tx },
           { users := users', portfolios := ps',
             transactions := store.transactions ++ [tx] })

/-- `executeTrade`, SQLite mode (database.js lines 254-334), embedded with
transactional semantics: the draft updates between `BEGIN` and `COMMIT` become
visible only on `COMMIT`; each `ROLLBACK` path yields the pre-call store.
`txInsertFails` models a storage error of the transaction-record `INSERT`
(line 316-319).  The resolved value is `{ success: true, balance }` where the
balance is re-read after commit with fallback 0 (line 323-324); no transaction
record is returned. -/
def sqliteExecuteTrade (store : Store) (userId : Nat) (symbol : String)
    (type : Side) (price : ℚ) (quantity : Int) (now : String)
    (txInsertFails : Bool) : Except TradeError TradeOk × Store :=
  let total : ℚ := price * (quantity : ℚ)
  match findUser store.users userId with
  | none => (Except.error TradeError.userNotFound, store)
  | some userRow =>
    match type with
    | Side.BUY =>
      if userRow.balance < total then
        (Except.error TradeError.insufficientFunds, store)
      else
        let users' := setUserBalance store.users userId (userRow.balance - total)
        let ps' :=
          match lookupPortfolio store.portfolios (userId, symbol) with
          | some pf =>
            let newQty := pf.quantity + quantity
            let newAvg : ℚ :=
              ((pf.quantity : ℚ) * pf.average_price + total) / (newQty : ℚ)
            setPortfolio store.portfolios (userId, symbol)
              { pf with quantity := newQty, average_price := newAvg,
                        updated_at := now }
          | none =>
            insertPortfolio store.portfolios (userId, symbol)
              { user_id := userId, symbol := symbol, quantity := quantity,
                average_price := price, updated_at := now }
        if txInsertFails then (Except.error TradeError.storageFailure, store)
        else
          let tx : Transaction :=
            { id := store.transactions.length + 1, user_id := userId,
              symbol := symbol, type := type, price := price,
              quantity := quantity, total_amount := total, timestamp := now }
          let store' : Store :=
            { users := users', portfolios := ps',
              transactions := store.transactions ++ [tx] }
          (Except.ok { success := true,
                       balance := ((findUser store'.users userId).map
                         (fun u => u.balance)).getD 0,
                       transaction := none },
           store')
    | Side.SELL =>
      match lookupPortfolio store.portfolios (userId, symbol) with
      | none => (Except.error TradeError.insufficientHoldings, store)
      | some pf =>
        if pf.quantity < quantity then
          (Except.error TradeError.insufficientHoldings, store)
        else
          let users' := setUserBalance store.users userId (userRow.balance + total)
          let newQty := pf.quantity - quantity
          let ps' :=
            if newQty = 0 then removePortfolio store.portfolios (userId, symbol)
            else setPortfolio store.portfolios (userId, symbol)
              { pf with quantity := newQty, updated_at := now }
          if txInsertFails then (Except.error TradeError.storageFailure, store)
          else
            let tx : Transaction :=
              { id := store.transactions.length + 1, user_id := userId,
                symbol := symbol, type := type, price := price,
                quantity := quantity, total_amount := total, timestamp := now }
            let store' : Store :=
              { users := users', portfolios := ps',
                transactions := store.transactions ++ [tx] }
            (Except.ok { success := true,
                         balance := ((findUser store'.users userId).map
                           (fun u => u.balance)).getD 0,
                         transaction := none },
             store')

/-- One trade request as received by `executeTrade`. -/
structure TradeReq where
  userId : Nat
  symbol : String
  type : Side
  price : ℚ
  quantity : Int
  now : String
  deriving DecidableEq, Repr

/-- The store after one call of memory-mode `executeTrade` (rejected calls
leave it unchanged by the error branches above). -/
def applyTrade (store : Store) (r : TradeReq) : Store :=
  (executeTrade store r.userId r.symbol r.type r.price r.quantity r.now).2

/-- The store after a sequence of `executeTrade` calls. -/
def runTrades (store : Store) (rs : List TradeReq) : Store :=
  rs.foldl applyTrade store

/-- The store-mutating operations of the transient backend: a trade request or
a `createUser` registration. -/
inductive Op
  | trade (r : TradeReq)
  | register (username passHash now : String)
  deriving DecidableEq, Repr

def applyOp (store : Store) : Op → Store
  | Op.trade r => applyTrade store r
  | Op.register u h n => (createUser store u h n).2

def runOps (store : Store) (ops : List Op) : Store :=
  ops.foldl applyOp store

/-- Replaying one transaction record: the state change that memory-mode
`executeTrade` applies for that record's side, price and quantity, on a
(balance, positions-of-one-account) pair. -/
def replayStep (st : ℚ × List ((Nat × String) × Position)) (t : Transaction) :
    ℚ × List ((Nat × String) × Position) :=
  let key : Nat × String := (t.user_id, t.symbol)
  match t.type with
  | Side.BUY =>
    let ps0 :=
      match lookupPortfolio st.2 key with
      | none =>
        insertPortfolio st.2 key
          { user_id := t.user_id, symbol := t.symbol, quantity := 0,
            average_price := 0, updated_at := t.timestamp }
      | some _ => st.2
    let p := (lookupPortfolio ps0 key).getD
      { user_id := t.user_id, symbol := t.symbol, quantity := 0,
        average_price := 0, updated_at := t.timestamp }
    let newQty := p.quantity + t.quantity
    let newAvg : ℚ :=
      ((p.quantity : ℚ) * p.average_price + t.total_amount) / (newQty : ℚ)
    (st.1 - t.total_amount,
     setPortfolio ps0 key
       { p with quantity := newQty, average_price := newAvg,
                updated_at := t.timestamp })
  | Side.SELL =>
    match lookupPortfolio st.2 key with
    | none => (st.1 + t.total_amount, st.2)
    | some p =>
      let newQty := p.quantity - t.quantity
      (st.1 + t.total_amount,
       if newQty = 0 then removePortfolio st.2 key
       else setPortfolio st.2 key
         { p with quantity := newQty, updated_at := t.timestamp })

/-- Replaying a transaction log from a starting balance and an empty position
set. -/
def replayLog (startBalance : ℚ) (records : List Transaction) :
    ℚ × List ((Nat × String) × Position) :=
  records.foldl replayStep (startBalance, [])

/-- The portfolio keys are consistent with the fields of the stored position:
the JS key `` `${userId}-${symbol}` `` is always built from the position's own
`user_id` and `symbol`.  Every store produced by the code has this property. -/
def KeyConsistent (ps : List ((Nat × String) × Position)) : Prop :=
  ∀ e ∈ ps, e.1 = (e.2.user_id, e.2.symbol)

/-! ### Lemmas about the store primitives -/

theorem mem_of_findUser {l : List User} {uid : Nat} {u : User}
    (h : findUser l uid = some u) : u ∈ l ∧ u.id = uid := by
  refine ⟨List.mem_of_find?_eq_some h, ?_⟩
  have h2 := List.find?_some h
  simpa using h2

theorem findUser_setUserBalance (l : List User) (uid : Nat) (b : ℚ) :
    findUser (setUserBalance l uid b) uid
      = (findUser l uid).map (fun u => { u with balance := b }) := by
  induction l with
  | nil => rfl
  | cons u rest ih =>
    by_cases h : u.id = uid
    · simp [setUserBalance, findUser, h]
    · simpa [setUserBalance, findUser, h] using ih

theorem map_id_setUserBalance (l : List User) (uid : Nat) (b : ℚ) :
    (setUserBalance l uid b).map User.id = l.map User.id := by
  induction l with
  | nil => rfl
  | cons u rest ih =>
    by_cases h : u.id = uid
    · simp [setUserBalance, h]
    · simp [setUserBalance, h, ih]

theorem mem_setUserBalance_of_ne {l : List User} {uid : Nat} {b : ℚ} {u' : User}
    (h : u' ∈ setUserBalance l uid b) (hne : u'.id ≠ uid) : u' ∈ l := by
  induction l with
  | nil => simp [setUserBalance] at h
  | cons u rest ih =>
    by_cases hu : u.id = uid
    · simp only [setUserBalance, if_pos hu, List.mem_cons] at h
      rcases h with h | h
      · exact absurd (by simp [h, hu] : u'.id = uid) hne
      · exact List.mem_cons_of_mem _ h
    · simp only [setUserBalance, if_neg hu, List.mem_cons] at h
      rcases h with h | h
      · exact h ▸ List.mem_cons_self _ _
      · exact List.mem_cons_of_mem _ (ih h)

theorem mem_setUserBalance_of_eq {l : List User} {uid : Nat} {b : ℚ} {u' user : User}
    (hnd : (l.map User.id).Nodup) (hf : findUser l uid = some user)
    (h : u' ∈ setUserBalance l uid b) (heq : u'.id = uid) :
    u' = { user with balance := b } := by
  induction l with
  | nil => simp [findUser] at hf
  | cons u rest ih =>
    simp only [List.map_cons, List.nodup_cons] at hnd
    by_cases hu : u.id = uid
    · have huser : user = u := by
        simp [findUser, hu] at hf
        exact hf.symm
      simp only [setUserBalance, if_pos hu, List.mem_cons] at h
      rcases h with h | h
      · simp [h, huser]
      · exfalso
        apply hnd.1
        have hmem : u'.id ∈ List.map User.id rest := List.mem_map_of_mem User.id h
        rw [heq] at hmem
        rw [hu]
        exact hmem
    · simp only [setUserBalance, if_neg hu, List.mem_cons] at h
      rcases h with h | h
      · exact absurd (h ▸ heq) hu
      · have hf' : findUser rest uid = some user := by
          simpa [findUser, hu] using hf
        exact ih hnd.2 hf' h

theorem lookupPortfolio_insert_self {l : List ((Nat × String) × Position)}
    {k : Nat × String} (h : lookupPortfolio l k = none) (p : Position) :
    lookupPortfolio (insertPortfolio l k p) k = some p := by
  induction l with
  | nil => simp [lookupPortfolio, insertPortfolio]
  | cons e rest ih =>
    by_cases he : e.1 = k
    · simp [lookupPortfolio, he] at h
    · have h' : lookupPortfolio rest k = none := by
        simpa [lookupPortfolio, he] using h
      simpa [lookupPortfolio, insertPortfolio, he] using ih h'

theorem lookupPortfolio_set_self (l : List ((Nat × String) × Position))
    (k : Nat × String) (p' : Position) :
    lookupPortfolio (setPortfolio l k p') k
      = (lookupPortfolio l k).map (fun _ => p') := by
  induction l with
  | nil => rfl
  | cons e rest ih =>
    by_cases he : e.1 = k
    · simp [lookupPortfolio, setPortfolio, he]
    · simpa [lookupPortfolio, setPortfolio, he] using ih

theorem lookupPortfolio_remove_self {l : List ((Nat × String) × Position)}
    (hnd : (l.map (fun e => e.1)).Nodup) (k : Nat × String) :
    lookupPortfolio (removePortfolio l k) k = none := by
  induction l with
  | nil => rfl
  | cons e rest ih =>
    simp only [List.map_cons, List.nodup_cons] at hnd
    by_cases he : e.1 = k
    · have hrest : lookupPortfolio rest k = none := by
        rw [lookupPortfolio, Option.map_eq_none', List.find?_eq_none]
        intro a ha hak
        apply hnd.1
        have hmem : a.1 ∈ List.map (fun e => e.1) rest :=
          List.mem_map_of_mem (fun e => e.1) ha
        have hak' : a.1 = k := by simpa using hak
        rw [he, ← hak']
        exact hmem
      simpa [removePortfolio, List.eraseP_cons, he] using hrest
    · have hrest := ih hnd.2
      simpa [removePortfolio, lookupPortfolio, List.eraseP_cons, he] using hrest

theorem setPortfolio_append_of_none {l : List ((Nat × String) × Position)}
    {k : Nat × String} (h : lookupPortfolio l k = none) (z p' : Position) :
    setPortfolio (l ++ [(k, z)]) k p' = l ++ [(k, p')] := by
  induction l with
  | nil => simp [setPortfolio]
  | cons e rest ih =>
    by_cases he : e.1 = k
    · simp [lookupPortfolio, he] at h
    · have h' : lookupPortfolio rest k = none := by
        simpa [lookupPortfolio, he] using h
      simp [setPortfolio, he, ih h']

/-! ### Filtering the portfolio map down to one account commutes with the
portfolio operations of a trade of that account, and ignores the operations of
trades of other accounts (`positionsOf` is such a filter). -/

theorem lookupPortfolio_filter {l : List ((Nat × String) × Position)}
    (hc : KeyConsistent l) (v : Nat) (sym : String) :
    lookupPortfolio (l.filter (fun e => e.2.user_id = v)) (v, sym)
      = lookupPortfolio l (v, sym) := by
  induction l with
  | nil => rfl
  | cons e rest ih =>
    have hc' : KeyConsistent rest := fun x hx => hc x (List.mem_cons_of_mem _ hx)
    by_cases hv : e.2.user_id = v
    · by_cases hk : e.1 = (v, sym)
      · simp [lookupPortfolio, List.filter_cons, hv, hk]
      · simpa [lookupPortfolio, List.filter_cons, hv, hk] using ih hc'
    · have hk : e.1 ≠ (v, sym) := by
        intro hkk
        apply hv
        have hce := hc e (List.mem_cons_self _ _)
        rw [hce] at hkk
        exact (Prod.ext_iff.mp hkk).1
      simpa [lookupPortfolio, List.filter_cons, hv, hk] using ih hc'

theorem filter_setPortfolio_self {l : List ((Nat × String) × Position)}
    (hc : KeyConsistent l) {v : Nat} {sym : String} {p' : Position}
    (hp' : p'.user_id = v) :
    (setPortfolio l (v, sym) p').filter (fun e => e.2.user_id = v)
      = setPortfolio (l.filter (fun e => e.2.user_id = v)) (v, sym) p' := by
  induction l with
  | nil => rfl
  | cons e rest ih =>
    have hc' : KeyConsistent rest := fun x hx => hc x (List.mem_cons_of_mem _ hx)
    by_cases hk : e.1 = (v, sym)
    · have hv : e.2.user_id = v := by
        have hce := hc e (List.mem_cons_self _ _)
        rw [hce] at hk
        exact (Prod.ext_iff.mp hk).1
      simp [setPortfolio, hk, List.filter_cons, hv, hp']
    · by_cases hv : e.2.user_id = v
      · simp [setPortfolio, hk, List.filter_cons, hv, ih hc']
      · simp [setPortfolio, hk, List.filter_cons, hv, ih hc']

theorem filter_removePortfolio_self {l : List ((Nat × String) × Position)}
    (hc : KeyConsistent l) (v : Nat) (sym : String) :
    (removePortfolio l (v, sym)).filter (fun e => e.2.user_id = v)
      = removePortfolio (l.filter (fun e => e.2.user_id = v)) (v, sym) := by
  induction l with
  | nil => rfl
  | cons e rest ih =>
    have hc' : KeyConsistent rest := fun x hx => hc x (List.mem_cons_of_mem _ hx)
    by_cases hk : e.1 = (v, sym)
    · have hv : e.2.user_id = v := by
        have hce := hc e (List.mem_cons_self _ _)
        rw [hce] at hk
        exact (Prod.ext_iff.mp hk).1
      simp [removePortfolio, List.eraseP_cons, hk, List.filter_cons, hv]
    · by_cases hv : e.2.user_id = v
      · simpa [removePortfolio, List.eraseP_cons, hk, List.filter_cons, hv]
          using ih hc'
      · simpa [removePortfolio, List.eraseP_cons, hk, List.filter_cons, hv]
          using ih hc'

theorem filter_setPortfolio_ne {l : List ((Nat × String) × Position)}
    (hc : KeyConsistent l) {v : Nat} {sym : String} {p' : Position} {w : Nat}
    (hp' : p'.user_id = v) (hw : w ≠ v) :
    (setPortfolio l (v, sym) p').filter (fun e => e.2.user_id = w)
      = l.filter (fun e => e.2.user_id = w) := by
  induction l with
  | nil => rfl
  | cons e rest ih =>
    have hc' : KeyConsistent rest := fun x hx => hc x (List.mem_cons_of_mem _ hx)
    by_cases hk : e.1 = (v, sym)
    · have hv : e.2.user_id = v := by
        have hce := hc e (List.mem_cons_self _ _)
        rw [hce] at hk
        exact (Prod.ext_iff.mp hk).1
      have hew : ¬ e.2.user_id = w := fun hh => hw (by rw [← hh, hv])
      have hpw : ¬ p'.user_id = w := fun hh => hw (by rw [← hh, hp'])
      simp [setPortfolio, hk, List.filter_cons, hew, hpw]
    · by_cases hv : e.2.user_id = w
      · simp [setPortfolio, hk, List.filter_cons, hv, ih hc']
      · simp [setPortfolio, hk, List.filter_cons, hv, ih hc']

theorem filter_removePortfolio_ne {l : List ((Nat × String) × Position)}
    (hc : KeyConsistent l) {v : Nat} (sym : String) {w : Nat} (hw : w ≠ v) :
    (removePortfolio l (v, sym)).filter (fun e => e.2.user_id = w)
      = l.filter (fun e => e.2.user_id = w) := by
  induction l with
  | nil => rfl
  | cons e rest ih =>
    have hc' : KeyConsistent rest := fun x hx => hc x (List.mem_cons_of_mem _ hx)
    by_cases hk : e.1 = (v, sym)
    · have hv : e.2.user_id = v := by
        have hce := hc e (List.mem_cons_self _ _)
        rw [hce] at hk
        exact (Prod.ext_iff.mp hk).1
      have hew : ¬ e.2.user_id = w := fun hh => hw (by rw [← hh, hv])
      simp [removePortfolio, List.eraseP_cons, hk, List.filter_cons, hew]
    · by_cases hv : e.2.user_id = w
      · simpa [removePortfolio, List.eraseP_cons, hk, List.filter_cons, hv]
          using ih hc'
      · simpa [removePortfolio, List.eraseP_cons, hk, List.filter_cons, hv]
          using ih hc'

/-! ### Branch characterizations of `executeTrade` (memory mode) -/

/-- The transaction record built at database.js line 248 / 314. -/
def mkTx (store : Store) (userId : Nat) (symbol : String) (type : Side)
    (price : ℚ) (quantity : Int) (now : String) : Transaction :=
  { id := store.transactions.length + 1, user_id := userId, symbol := symbol,
    type := type, price := price, quantity := quantity,
    total_amount := price * (quantity : ℚ), timestamp := now }

theorem exec_noUser {store : Store} {uid : Nat} {sym : String} {ty : Side}
    {price : ℚ} {qty : Int} {now : String}
    (hu : findUser store.users uid = none) :
    executeTrade store uid sym ty price qty now
      = (Except.error TradeError.userNotFound, store) := by
  simp [executeTrade, hu]

theorem exec_buy_reject {store : Store} {uid : Nat} {sym : String}
    {price : ℚ} {qty : Int} {now : String} {user : User}
    (hu : findUser store.users uid = some user)
    (hb : user.balance < price * (qty : ℚ)) :
    executeTrade store uid sym Side.BUY price qty now
      = (Except.error TradeError.insufficientFunds, store) := by
  simp [executeTrade, hu, hb]

theorem exec_buy_existing {store : Store} {uid : Nat} {sym : String}
    {price : ℚ} {qty : Int} {now : String} {user : User} {p : Position}
    (hu : findUser store.users uid = some user)
    (hb : ¬ user.balance < price * (qty : ℚ))
    (hp : lookupPortfolio store.portfolios (uid, sym) = some p) :
    executeTrade store uid sym Side.BUY price qty now
      = (Except.ok { success := true,
                     balance := user.balance - price * (qty : ℚ),
                     transaction := some (mkTx store uid sym Side.BUY price qty now) },
         { users := setUserBalance store.users uid (user.balance - price * (qty : ℚ)),
           portfolios := setPortfolio store.portfolios (uid, sym)
             { p with quantity := p.quantity + qty,
                      average_price := ((p.quantity : ℚ) * p.average_price
                        + price * (qty : ℚ)) / ((p.quantity + qty : Int) : ℚ),
                      updated_at := now },
           transactions := store.transactions
             ++ [mkTx store uid sym Side.BUY price qty now] }) := by
  simp [executeTrade, hu, hb, hp, mkTx]

theorem exec_buy_new {store : Store} {uid : Nat} {sym : String}
    {price : ℚ} {qty : Int} {now : String} {user : User}
    (hu : findUser store.users uid = some user)
    (hb : ¬ user.balance < price * (qty : ℚ))
    (hp : lookupPortfolio store.portfolios (uid, sym) = none) :
    executeTrade store uid sym Side.BUY price qty now
      = (Except.ok { success := true,
                     balance := user.balance - price * (qty : ℚ),
                     transaction := some (mkTx store uid sym Side.BUY price qty now) },
         { users := setUserBalance store.users uid (user.balance - price * (qty : ℚ)),
           portfolios := store.portfolios
             ++ [((uid, sym),
                  { user_id := uid, symbol := sym, quantity := qty,
                    average_price := price * (qty : ℚ) / (qty : ℚ),
                    updated_at := now })],
           transactions := store.transactions
             ++ [mkTx store uid sym Side.BUY price qty now] }) := by
  have hins := lookupPortfolio_insert_self hp
    { user_id := uid, symbol := sym, quantity := 0, average_price := 0,
      updated_at := now }
  have hset := setPortfolio_append_of_none hp
    ({ user_id := uid, symbol := sym, quantity := 0, average_price := 0,
       updated_at := now })
    ({ user_id := uid, symbol := sym, quantity := 0 + qty,
       average_price := (((0 : Int) : ℚ) * 0 + price * (qty : ℚ))
         / (((0 : Int) + qty : Int) : ℚ),
       updated_at := now })
  simp only [insertPortfolio] at hins
  simp only [zero_add, Int.cast_zero, zero_mul] at hset
  simp [executeTrade, hu, hb, hp, mkTx, hins, insertPortfolio, hset]

theorem exec_sell_noPos {store : Store} {uid : Nat} {sym : String}
    {price : ℚ} {qty : Int} {now : String} {user : User}
    (hu : findUser store.users uid = some user)
    (hp : lookupPortfolio store.portfolios (uid, sym) = none) :
    executeTrade store uid sym Side.SELL price qty now
      = (Except.error TradeError.insufficientHoldings, store) := by
  simp [executeTrade, hu, hp]

theorem exec_sell_reject {store : Store} {uid : Nat} {sym : String}
    {price : ℚ} {qty : Int} {now : String} {user : User} {p : Position}
    (hu : findUser store.users uid = some user)
    (hp : lookupPortfolio store.portfolios (uid, sym) = some p)
    (hq : p.quantity < qty) :
    executeTrade store uid sym Side.SELL price qty now
      = (Except.error TradeError.insufficientHoldings, store) := by
  simp [executeTrade, hu, hp, hq]

theorem exec_sell_full {store : Store} {uid : Nat} {sym : String}
    {price : ℚ} {qty : Int} {now : String} {user : User} {p : Position}
    (hu : findUser store.users uid = some user)
    (hp : lookupPortfolio store.portfolios (uid, sym) = some p)
    (hq : ¬ p.quantity < qty) (hz : p.quantity - qty = 0) :
    executeTrade store uid sym Side.SELL price qty now
      = (Except.ok { success := true,
                     balance := user.balance + price * (qty : ℚ),
                     transaction := some (mkTx store uid sym Side.SELL price qty now) },
         { users := setUserBalance store.users uid (user.balance + price * (qty : ℚ)),
           portfolios := removePortfolio store.portfolios (uid, sym),
           transactions := store.transactions
             ++ [mkTx store uid sym Side.SELL price qty now] }) := by
  simp [executeTrade, hu, hp, hq, hz, mkTx]

theorem exec_sell_decrement {store : Store} {uid : Nat} {sym : String}
    {price : ℚ} {qty : Int} {now : String} {user : User} {p : Position}
    (hu : findUser store.users uid = some user)
    (hp : lookupPortfolio store.portfolios (uid, sym) = some p)
    (hq : ¬ p.quantity < qty) (hz : ¬ p.quantity - qty = 0) :
    executeTrade store uid sym Side.SELL price qty now
      = (Except.ok { success := true,
                     balance := user.balance + price * (qty : ℚ),
                     transaction := some (mkTx store uid sym Side.SELL price qty now) },
         { users := setUserBalance store.users uid (user.balance + price * (qty : ℚ)),
           portfolios := setPortfolio store.portfolios (uid, sym)
             { p with quantity := p.quantity - qty, updated_at := now },
           transactions := store.transactions
             ++ [mkTx store uid sym Side.SELL price qty now] }) := by
  simp [executeTrade, hu, hp, hq, hz, mkTx]

/-! ### Branch characterizations of `executeTrade` (SQLite mode) -/

theorem sql_noUser {store : Store} {uid : Nat} {sym : String} {ty : Side}
    {price : ℚ} {qty : Int} {now : String} {fail : Bool}
    (hu : findUser store.users uid = none) :
    sqliteExecuteTrade store uid sym ty price qty now fail
      = (Except.error TradeError.userNotFound, store) := by
  simp [sqliteExecuteTrade, hu]

theorem sql_buy_reject {store : Store} {uid : Nat} {sym : String}
    {price : ℚ} {qty : Int} {now : String} {fail : Bool} {user : User}
    (hu : findUser store.users uid = some user)
    (hb : user.balance < price * (qty : ℚ)) :
    sqliteExecuteTrade store uid sym Side.BUY price qty now fail
      = (Except.error TradeError.insufficientFunds, store) := by
  simp [sqliteExecuteTrade, hu, hb]

theorem sql_buy_fail {store : Store} {uid : Nat} {sym : String}
    {price : ℚ} {qty : Int} {now : String} {user : User}
    (hu : findUser store.users uid = some user)
    (hb : ¬ user.balance < price * (qty : ℚ)) :
    sqliteExecuteTrade store uid sym Side.BUY price qty now true
      = (Except.error TradeError.storageFailure, store) := by
  rcases hp : lookupPortfolio store.portfolios (uid, sym) with _ | p <;>
    simp [sqliteExecuteTrade, hu, hb, hp]

theorem sql_buy_existing {store : Store} {uid : Nat} {sym : String}
    {price : ℚ} {qty : Int} {now : String} {user : User} {p : Position}
    (hu : findUser store.users uid = some user)
    (hb : ¬ user.balance < price * (qty : ℚ))
    (hp : lookupPortfolio store.portfolios (uid, sym) = some p) :
    sqliteExecuteTrade store uid sym Side.BUY price qty now false
      = (Except.ok { success := true,
                     balance := user.balance - price * (qty : ℚ),
                     transaction := none },
         { users := setUserBalance store.users uid (user.balance - price * (qty : ℚ)),
           portfolios := setPortfolio store.portfolios (uid, sym)
             { p with quantity := p.quantity + qty,
                      average_price := ((p.quantity : ℚ) * p.average_price
                        + price * (qty : ℚ)) / ((p.quantity + qty : Int) : ℚ),
                      updated_at := now },
           transactions := store.transactions
             ++ [mkTx store uid sym Side.BUY price qty now] }) := by
  simp [sqliteExecuteTrade, hu, hb, hp, mkTx, findUser_setUserBalance]

theorem sql_buy_new {store : Store} {uid : Nat} {sym : String}
    {price : ℚ} {qty : Int} {now : String} {user : User}
    (hu : findUser store.users uid = some user)
    (hb : ¬ user.balance < price * (qty : ℚ))
    (hp : lookupPortfolio store.portfolios (uid, sym) = none) :
    sqliteExecuteTrade store uid sym Side.BUY price qty now false
      = (Except.ok { success := true,
                     balance := user.balance - price * (qty : ℚ),
                     transaction := none },
         { users := setUserBalance store.users uid (user.balance - price * (qty : ℚ)),
           portfolios := store.portfolios
             ++ [((uid, sym),
                  { user_id := uid, symbol := sym, quantity := qty,
                    average_price := price, updated_at := now })],
           transactions := store.transactions
             ++ [mkTx store uid sym Side.BUY price qty now] }) := by
  simp [sqliteExecuteTrade, hu, hb, hp, mkTx, findUser_setUserBalance,
    insertPortfolio]

theorem sql_sell_noPos {store : Store} {uid : Nat} {sym : String}
    {price : ℚ} {qty : Int} {now : String} {fail : Bool} {user : User}
    (hu : findUser store.users uid = some user)
    (hp : lookupPortfolio store.portfolios (uid, sym) = none) :
    sqliteExecuteTrade store uid sym Side.SELL price qty now fail
      = (Except.error TradeError.insufficientHoldings, store) := by
  simp [sqliteExecuteTrade, hu, hp]

theorem sql_sell_reject {store : Store} {uid : Nat} {sym : String}
    {price : ℚ} {qty : Int} {now : String} {fail : Bool} {user : User} {p : Position}
    (hu : findUser store.users uid = some user)
    (hp : lookupPortfolio store.portfolios (uid, sym) = some p)
    (hq : p.quantity < qty) :
    sqliteExecuteTrade store uid sym Side.SELL price qty now fail
      = (Except.error TradeError.insufficientHoldings, store) := by
  simp [sqliteExecuteTrade, hu, hp, hq]

theorem sql_sell_fail {store : Store} {uid : Nat} {sym : String}
    {price : ℚ} {qty : Int} {now : String} {user : User} {p : Position}
    (hu : findUser store.users uid = some user)
    (hp : lookupPortfolio store.portfolios (uid, sym) = some p)
    (hq : ¬ p.quantity < qty) :
    sqliteExecuteTrade store uid sym Side.SELL price qty now true
      = (Except.error TradeError.storageFailure, store) := by
  by_cases hz : p.quantity - qty = 0 <;>
    simp [sqliteExecuteTrade, hu, hp, hq, hz]

theorem sql_sell_full {store : Store} {uid : Nat} {sym : String}
    {price : ℚ} {qty : Int} {now : String} {user : User} {p : Position}
    (hu : findUser store.users uid = some user)
    (hp : lookupPortfolio store.portfolios (uid, sym) = some p)
    (hq : ¬ p.quantity < qty) (hz : p.quantity - qty = 0) :
    sqliteExecuteTrade store uid sym Side.SELL price qty now false
      = (Except.ok { success := true,
                     balance := user.balance + price * (qty : ℚ),
                     transaction := none },
         { users := setUserBalance store.users uid (user.balance + price * (qty : ℚ)),
           portfolios := removePortfolio store.portfolios (uid, sym),
           transactions := store.transactions
             ++ [mkTx store uid sym Side.SELL price qty now] }) := by
  simp [sqliteExecuteTrade, hu, hp, hq, hz, mkTx, findUser_setUserBalance]

theorem sql_sell_decrement {store : Store} {uid : Nat} {sym : String}
    {price : ℚ} {qty : Int} {now : String} {user : User} {p : Position}
    (hu : findUser store.users uid = some user)
    (hp : lookupPortfolio store.portfolios (uid, sym) = some p)
    (hq : ¬ p.quantity < qty) (hz : ¬ p.quantity - qty = 0) :
    sqliteExecuteTrade store uid sym Side.SELL price qty now false
      = (Except.ok { success := true,
                     balance := user.balance + price * (qty : ℚ),
                     transaction := none },
         { users := setUserBalance store.users uid (user.balance + price * (qty : ℚ)),
           portfolios := setPortfolio store.portfolios (uid, sym)
             { p with quantity := p.quantity - qty, updated_at := now },
           transactions := store.transactions
             ++ [mkTx store uid sym Side.SELL price qty now] }) := by
  simp [sqliteExecuteTrade, hu, hp, hq, hz, mkTx, findUser_setUserBalance]

/-! ### Every rejection leaves the store unchanged -/

theorem executeTrade_error_snd {store : Store} {uid : Nat} {sym : String}
    {ty : Side} {price : ℚ} {qty : Int} {now : String} {e : TradeError}
    (h : (executeTrade store uid sym ty price qty now).1 = Except.error e) :
    (executeTrade store uid sym ty price qty now).2 = store := by
  rcases hu : findUser store.users uid with _ | user
  · simp [exec_noUser hu]
  · cases ty with
    | BUY =>
      by_cases hb : user.balance < price * (qty : ℚ)
      · simp [exec_buy_reject hu hb]
      · rcases hp : lookupPortfolio store.portfolios (uid, sym) with _ | p
        · rw [exec_buy_new hu hb hp] at h
          simp at h
        · rw [exec_buy_existing hu hb hp] at h
          simp at h
    | SELL =>
      rcases hp : lookupPortfolio store.portfolios (uid, sym) with _ | p
      · simp [exec_sell_noPos hu hp]
      · by_cases hq : p.quantity < qty
        · simp [exec_sell_reject hu hp hq]
        · by_cases hz : p.quantity - qty = 0
          · rw [exec_sell_full hu hp hq hz] at h
            simp at h
          · rw [exec_sell_decrement hu hp hq hz] at h
            simp at h

theorem sqliteExecuteTrade_error_snd {store : Store} {uid : Nat} {sym : String}
    {ty : Side} {price : ℚ} {qty : Int} {now : String} {fail : Bool}
    {e : TradeError}
    (h : (sqliteExecuteTrade store uid sym ty price qty now fail).1
      = Except.error e) :
    (sqliteExecuteTrade store uid sym ty price qty now fail).2 = store := by
  rcases hu : findUser store.users uid with _ | user
  · simp [sql_noUser hu]
  · cases ty with
    | BUY =>
      by_cases hb : user.balance < price * (qty : ℚ)
      · simp [sql_buy_reject hu hb]
      · cases fail with
        | true => simp [sql_buy_fail hu hb]
        | false =>
          rcases hp : lookupPortfolio store.portfolios (uid, sym) with _ | p
          · rw [sql_buy_new hu hb hp] at h
            simp at h
          · rw [sql_buy_existing hu hb hp] at h
            simp at h
    | SELL =>
      rcases hp : lookupPortfolio store.portfolios (uid, sym) with _ | p
      · simp [sql_sell_noPos hu hp]
      · by_cases hq : p.quantity < qty
        · simp [sql_sell_reject hu hp hq]
        · cases fail with
          | true => simp [sql_sell_fail hu hp hq]
          | false =>
            by_cases hz : p.quantity - qty = 0
            · rw [sql_sell_full hu hp hq hz] at h
              simp at h
            · rw [sql_sell_decrement hu hp hq hz] at h
              simp at h

/-! ### Reachable-store invariant for the replay claim -/

theorem lookupPortfolio_fields {l : List ((Nat × String) × Position)}
    {k : Nat × String} {p : Position} (hc : KeyConsistent l)
    (hp : lookupPortfolio l k = some p) : k = (p.user_id, p.symbol) := by
  unfold lookupPortfolio at hp
  rcases hfind : l.find? (fun e => e.1 = k) with _ | e
  · rw [hfind] at hp
    simp at hp
  · rw [hfind] at hp
    have hk : e.1 = k := by simpa using List.find?_some hfind
    have hmem : e ∈ l := List.mem_of_find?_eq_some hfind
    have hpe : p = e.2 := by simpa using hp.symm
    rw [hpe, ← hk]
    exact hc e hmem

theorem mem_setPortfolio {l : List ((Nat × String) × Position)}
    {k : Nat × String} {p' : Position} {e' : (Nat × String) × Position}
    (h : e' ∈ setPortfolio l k p') : e' ∈ l ∨ e' = (k, p') := by
  induction l with
  | nil => simp [setPortfolio] at h
  | cons e rest ih =>
    by_cases hk : e.1 = k
    · simp only [setPortfolio, if_pos hk, List.mem_cons] at h
      rcases h with h | h
      · exact Or.inr h
      · exact Or.inl (List.mem_cons_of_mem _ h)
    · simp only [setPortfolio, if_neg hk, List.mem_cons] at h
      rcases h with h | h
      · exact Or.inl (h ▸ List.mem_cons_self _ _)
      · rcases ih h with h' | h'
        · exact Or.inl (List.mem_cons_of_mem _ h')
        · exact Or.inr h'

theorem mem_ids_of_findUser {l : List User} {uid : Nat} {user : User}
    (hu : findUser l uid = some user) : uid ∈ l.map User.id := by
  rcases mem_of_findUser hu with ⟨hm, hid⟩
  exact hid ▸ List.mem_map_of_mem User.id hm

theorem replayLog_append (b : ℚ) (records : List Transaction)
    (t : Transaction) :
    replayLog b (records ++ [t]) = replayStep (replayLog b records) t := by
  simp [replayLog, List.foldl_append]

/-- The invariant of every store reachable from the seeded transient store:
user ids are exactly 1..n in order; portfolio keys agree with the stored
positions; positions and transaction records all belong to existing users;
and every user's balance and positions are reproduced by replaying that
user's transaction log from the initial balance 100000 and no positions. -/
def GoodStore (s : Store) : Prop :=
  s.users.map User.id = List.range' 1 s.users.length ∧
  KeyConsistent s.portfolios ∧
  (∀ e ∈ s.portfolios, e.2.user_id ∈ s.users.map User.id) ∧
  (∀ t ∈ s.transactions, t.user_id ∈ s.users.map User.id) ∧
  (∀ u ∈ s.users,
    replayLog 100000 (transactionsOf s u.id) = (u.balance, positionsOf s u.id))

theorem goodStore_init (ph t0 : String) : GoodStore (initMemoryData ph t0) := by
  refine ⟨by simp [initMemoryData, List.range'], by simp [initMemoryData, KeyConsistent],
    by simp [initMemoryData], by simp [initMemoryData], ?_⟩
  intro u hu
  simp only [initMemoryData, List.mem_singleton] at hu
  subst hu
  simp [transactionsOf, positionsOf, replayLog, initMemoryData]

theorem goodStore_register {s : Store} (h : GoodStore s)
    (uname hash now : String) : GoodStore (createUser s uname hash now).2 := by
  obtain ⟨h1, h2, h3, h4, h5⟩ := h
  have hlen : ((createUser s uname hash now).2).users
      = s.users ++
        [{ id := s.users.length + 1, username := uname,
           password := hash, balance := 100000, created_at := now }] := rfl
  have hids : ((createUser s uname hash now).2).users.map User.id
      = List.range' 1 ((createUser s uname hash now).2).users.length := by
    rw [hlen]
    simp only [List.map_append, List.length_append, List.map_cons,
      List.map_nil, List.length_cons, List.length_nil]
    rw [h1]
    have := @List.range'_concat 1 1 s.users.length
    rw [this]
    norm_num
    omega
  have hnotold : s.users.length + 1 ∉ s.users.map User.id := by
    rw [h1]
    intro hmem
    rw [List.mem_range'_1] at hmem
    omega
  refine ⟨hids, h2, ?_, ?_, ?_⟩
  · intro e he
    have := h3 e he
    rw [hlen]
    simp only [List.map_append, List.mem_append]
    exact Or.inl this
  · intro t ht
    have := h4 t ht
    rw [hlen]
    simp only [List.map_append, List.mem_append]
    exact Or.inl this
  · intro u hu
    rw [hlen] at hu
    rcases List.mem_append.mp hu with hold | hnew
    · exact h5 u hold
    · simp only [List.mem_singleton] at hnew
      subst hnew
      have htx : transactionsOf (createUser s uname hash now).2
          (s.users.length + 1) = [] := by
        simp only [transactionsOf, createUser]
        rw [List.filter_eq_nil_iff]
        intro t ht
        simp only [decide_eq_true_eq]
        intro heq
        exact hnotold (heq ▸ h4 t ht)
      have hpos : positionsOf (createUser s uname hash now).2
          (s.users.length + 1) = [] := by
        simp only [positionsOf, createUser]
        rw [List.filter_eq_nil_iff]
        intro e he
        simp only [decide_eq_true_eq]
        intro heq
        exact hnotold (heq ▸ h3 e he)
      rw [htx, hpos]
      rfl

/-- A committed trade of user `uid` preserves `GoodStore`, given the new
balance `b`, new portfolio map `ps'` and appended record `tx`, when the
portfolio update filtered to other accounts is a no-op and filtered to `uid`
agrees with one `replayStep` of `tx`. -/
theorem goodStore_step {s : Store} {uid : Nat} {user : User} {b : ℚ}
    {ps' : List ((Nat × String) × Position)} {tx : Transaction}
    (h1 : s.users.map User.id = List.range' 1 s.users.length)
    (h4 : ∀ t ∈ s.transactions, t.user_id ∈ s.users.map User.id)
    (h5 : ∀ u ∈ s.users,
      replayLog 100000 (transactionsOf s u.id) = (u.balance, positionsOf s u.id))
    (hu : findUser s.users uid = some user)
    (htxu : tx.user_id = uid)
    (hcons : KeyConsistent ps')
    (hown : ∀ e ∈ ps', e.2.user_id ∈ s.users.map User.id)
    (hother : ∀ w, w ≠ uid →
      ps'.filter (fun e => e.2.user_id = w)
        = s.portfolios.filter (fun e => e.2.user_id = w))
    (hreplay :
      replayStep (user.balance, s.portfolios.filter (fun e => e.2.user_id = uid)) tx
        = (b, ps'.filter (fun e => e.2.user_id = uid))) :
    GoodStore { users := setUserBalance s.users uid b, portfolios := ps',
                transactions := s.transactions ++ [tx] } := by
  have hnodup : (s.users.map User.id).Nodup := by
    rw [h1]
    exact List.nodup_range' 1 s.users.length
  have hmapid : (setUserBalance s.users uid b).map User.id
      = s.users.map User.id := map_id_setUserBalance s.users uid b
  have hlen : (setUserBalance s.users uid b).length = s.users.length := by
    have hc := congrArg List.length hmapid
    simpa using hc
  refine ⟨?_, hcons, ?_, ?_, ?_⟩
  · show (setUserBalance s.users uid b).map User.id
      = List.range' 1 (setUserBalance s.users uid b).length
    rw [hmapid, hlen]
    exact h1
  · intro e he
    show e.2.user_id ∈ (setUserBalance s.users uid b).map User.id
    rw [hmapid]
    exact hown e he
  · intro t ht
    show t.user_id ∈ (setUserBalance s.users uid b).map User.id
    rw [hmapid]
    rcases List.mem_append.mp ht with hold | hnew
    · exact h4 t hold
    · simp only [List.mem_singleton] at hnew
      subst hnew
      rw [htxu]
      exact mem_ids_of_findUser hu
  · intro u' hu'
    simp only [List.mem_cons] at hu'
    by_cases hcase : u'.id = uid
    · have hueq : u' = { user with balance := b } :=
        mem_setUserBalance_of_eq hnodup hu hu' hcase
      have htxof : transactionsOf
          { users := setUserBalance s.users uid b, portfolios := ps',
            transactions := s.transactions ++ [tx] } u'.id
          = transactionsOf s uid ++ [tx] := by
        simp [transactionsOf, List.filter_append, hcase, htxu]
      rw [htxof, replayLog_append]
      have hmemu := mem_of_findUser hu
      have h5u : replayLog 100000 (transactionsOf s uid)
          = (user.balance, positionsOf s uid) := by
        have hx := h5 user hmemu.1
        rw [hmemu.2] at hx
        exact hx
      rw [h5u]
      have hub : u'.balance = b := by rw [hueq]
      show replayStep (user.balance, positionsOf s uid) tx
        = (u'.balance, ps'.filter (fun e => e.2.user_id = u'.id))
      rw [hub, hcase]
      simpa [positionsOf] using hreplay
    · have hmem : u' ∈ s.users := mem_setUserBalance_of_ne hu' hcase
      have hne : ¬ tx.user_id = u'.id := by
        rw [htxu]
        exact fun hh => hcase hh.symm
      have htxof : transactionsOf
          { users := setUserBalance s.users uid b, portfolios := ps',
            transactions := s.transactions ++ [tx] } u'.id
          = transactionsOf s u'.id := by
        simp [transactionsOf, List.filter_append, hne]
      rw [htxof]
      show replayLog 100000 (transactionsOf s u'.id)
        = (u'.balance, ps'.filter (fun e => e.2.user_id = u'.id))
      rw [hother u'.id hcase]
      exact h5 u' hmem

theorem goodStore_exec {s : Store} (h : GoodStore s) (uid : Nat) (sym : String)
    (ty : Side) (price : ℚ) (qty : Int) (now : String) :
    GoodStore (executeTrade s uid sym ty price qty now).2 := by
  obtain ⟨h1, h2, h3, h4, h5⟩ := h
  rcases hu : findUser s.users uid with _ | user
  · rw [exec_noUser hu]
    exact ⟨h1, h2, h3, h4, h5⟩
  · have huid : uid ∈ s.users.map User.id := mem_ids_of_findUser hu
    cases ty with
    | BUY =>
      by_cases hb : user.balance < price * (qty : ℚ)
      · rw [exec_buy_reject hu hb]
        exact ⟨h1, h2, h3, h4, h5⟩
      · rcases hp : lookupPortfolio s.portfolios (uid, sym) with _ | p
        · rw [exec_buy_new hu hb hp]
          have hlf := lookupPortfolio_filter h2 uid sym
          rw [hp] at hlf
          refine goodStore_step h1 h4 h5 hu rfl ?_ ?_ ?_ ?_
          · intro e he
            rcases List.mem_append.mp he with hold | hnew
            · exact h2 e hold
            · simp only [List.mem_singleton] at hnew
              subst hnew
              rfl
          · intro e he
            rcases List.mem_append.mp he with hold | hnew
            · exact h3 e hold
            · simp only [List.mem_singleton] at hnew
              subst hnew
              exact huid
          · intro w hw
            have hne : ¬ ((uid : Nat) = w) := fun hh => hw hh.symm
            rw [List.filter_append]
            simp [hne]
          · have hins := lookupPortfolio_insert_self hlf
              { user_id := uid, symbol := sym, quantity := 0,
                average_price := 0, updated_at := now }
            have hset := setPortfolio_append_of_none hlf
              ({ user_id := uid, symbol := sym, quantity := 0,
                 average_price := 0, updated_at := now })
              ({ user_id := uid, symbol := sym, quantity := 0 + qty,
                 average_price := (((0 : Int) : ℚ) * 0 + price * (qty : ℚ))
                   / (((0 : Int) + qty : Int) : ℚ),
                 updated_at := now })
            simp only [insertPortfolio] at hins
            simp only [zero_add, Int.cast_zero, zero_mul] at hset
            simp [replayStep, mkTx, hlf, hins, insertPortfolio, hset,
              List.filter_append]
        · rw [exec_buy_existing hu hb hp]
          have hkf := lookupPortfolio_fields h2 hp
          have hpu : p.user_id = uid := ((Prod.ext_iff.mp hkf).1).symm
          have hps : p.symbol = sym := ((Prod.ext_iff.mp hkf).2).symm
          have hlf := lookupPortfolio_filter h2 uid sym
          rw [hp] at hlf
          refine goodStore_step h1 h4 h5 hu rfl ?_ ?_ ?_ ?_
          · intro e he
            rcases mem_setPortfolio he with hold | hnew
            · exact h2 e hold
            · rw [hnew]
              show (uid, sym) = (p.user_id, p.symbol)
              exact hkf
          · intro e he
            rcases mem_setPortfolio he with hold | hnew
            · exact h3 e hold
            · rw [hnew]
              show p.user_id ∈ s.users.map User.id
              rw [hpu]
              exact huid
          · intro w hw
            exact filter_setPortfolio_ne h2 hpu hw
          · have hfs := @filter_setPortfolio_self s.portfolios h2 uid sym
              { p with
                quantity := p.quantity + qty,
                average_price := ((p.quantity : ℚ) * p.average_price
                  + price * (qty : ℚ)) / ((p.quantity + qty : Int) : ℚ),
                updated_at := now } hpu
            push_cast at hfs
            simp [replayStep, mkTx, hlf, hfs]
    | SELL =>
      rcases hp : lookupPortfolio s.portfolios (uid, sym) with _ | p
      · rw [exec_sell_noPos hu hp]
        exact ⟨h1, h2, h3, h4, h5⟩
      · have hkf := lookupPortfolio_fields h2 hp
        have hpu : p.user_id = uid := ((Prod.ext_iff.mp hkf).1).symm
        have hps : p.symbol = sym := ((Prod.ext_iff.mp hkf).2).symm
        have hlf := lookupPortfolio_filter h2 uid sym
        rw [hp] at hlf
        by_cases hq : p.quantity < qty
        · rw [exec_sell_reject hu hp hq]
          exact ⟨h1, h2, h3, h4, h5⟩
        · by_cases hz : p.quantity - qty = 0
          · rw [exec_sell_full hu hp hq hz]
            refine goodStore_step h1 h4 h5 hu rfl ?_ ?_ ?_ ?_
            · intro e he
              exact h2 e ((List.eraseP_sublist s.portfolios).subset he)
            · intro e he
              exact h3 e ((List.eraseP_sublist s.portfolios).subset he)
            · intro w hw
              exact filter_removePortfolio_ne h2 sym hw
            · have hfr := filter_removePortfolio_self h2 uid sym
              simp only [removePortfolio] at hfr
              simp [replayStep, mkTx, hlf, hz, hfr, removePortfolio]
          · rw [exec_sell_decrement hu hp hq hz]
            refine goodStore_step h1 h4 h5 hu rfl ?_ ?_ ?_ ?_
            · intro e he
              rcases mem_setPortfolio he with hold | hnew
              · exact h2 e hold
              · rw [hnew]
                show (uid, sym) = (p.user_id, p.symbol)
                exact hkf
            · intro e he
              rcases mem_setPortfolio he with hold | hnew
              · exact h3 e hold
              · rw [hnew]
                show p.user_id ∈ s.users.map User.id
                rw [hpu]
                exact huid
            · intro w hw
              exact filter_setPortfolio_ne h2 hpu hw
            · have hfs := @filter_setPortfolio_self s.portfolios h2 uid sym
                { p with quantity := p.quantity - qty, updated_at := now } hpu
              simp [replayStep, mkTx, hlf, hz, hfs]

theorem goodStore_applyOp {s : Store} (h : GoodStore s) (op : Op) :
    GoodStore (applyOp s op) := by
  cases op with
  | trade r =>
    show GoodStore (executeTrade s r.userId r.symbol r.type r.price
      r.quantity r.now).2
    exact goodStore_exec h r.userId r.symbol r.type r.price r.quantity r.now
  | register uname hash now => exact goodStore_register h uname hash now

theorem goodStore_runOps {s : Store} (h : GoodStore s) (ops : List Op) :
    GoodStore (runOps s ops) := by
  induction ops generalizing s with
  | nil => exact h
  | cons op rest ih => exact ih (goodStore_applyOp h op)

/-! ### Concrete stores used by the claim instances -/

/-- The seeded transient store, with opaque hash `"h"` and timestamp `"t"`. -/
def demoStore : Store := initMemoryData "h" "t"

/-- A store whose only account (id 1) has balance 50.00. -/
def lowBalanceStore : Store :=
  { users := [{ id := 1, username := "demo", password := "h", balance := 50,
                created_at := "t" }],
    portfolios := [], transactions := [] }

/-- `demoStore` after BUY 10 "X" @ 100.00. -/
def buyHundredStore : Store :=
  (executeTrade demoStore 1 "X" Side.BUY 100 10 "t").2

/-- `buyHundredStore` after BUY 10 "X" @ 200.00. -/
def buyTwiceStore : Store :=
  (executeTrade buyHundredStore 1 "X" Side.BUY 200 10 "t").2

/-- `demoStore` after BUY 5 "Y" @ 10.00. -/
def buyFiveStore : Store :=
  (executeTrade demoStore 1 "Y" Side.BUY 10 5 "t").2

/-- `buyFiveStore` after SELL 5 "Y" @ 12.00 (full liquidation). -/
def liquidatedStore : Store :=
  (executeTrade buyFiveStore 1 "Y" Side.SELL 12 5 "t").2

/-- `demoStore` after BUY 1 "AAPL" @ 10.00. -/
def oneBuyStore : Store :=
  (executeTrade demoStore 1 "AAPL" Side.BUY 10 1 "t").2

/-- `demoStore` after BUY 1 "AAPL" @ 1.00. -/
def smallBuyStore : Store :=
  (executeTrade demoStore 1 "AAPL" Side.BUY 1 1 "t").2

/-- The operation list performing BUY 1 "AAPL" @ 10.00 for the demo user. -/
def oneBuyOps : List Op :=
  [Op.trade { userId := 1, symbol := "AAPL", type := Side.BUY, price := 10,
              quantity := 1, now := "t" }]

/-! ### The claims -/

/-- **C1.** Every call to `executeTrade` that ends in a rejection — account not
found, insufficient funds, insufficient holdings, or a storage-level failure
during commit — leaves the post-call store equal to the pre-call store exactly
(balance, every position entry and the transaction log unchanged, and no
transaction record for the failed attempt), in both the transient and the
SQLite mode. -/
theorem c1_rejection_preserves_store (store : Store) (uid : Nat) (sym : String)
    (ty : Side) (price : ℚ) (qty : Int) (now : String) (fail : Bool)
    (e : TradeError) :
    ((executeTrade store uid sym ty price qty now).1 = Except.error e →
      (executeTrade store uid sym ty price qty now).2 = store) ∧
    ((sqliteExecuteTrade store uid sym ty price qty now fail).1 = Except.error e →
      (sqliteExecuteTrade store uid sym ty price qty now fail).2 = store) :=
  ⟨executeTrade_error_snd, sqliteExecuteTrade_error_snd⟩

/-- Witness for C1: a rejected BUY (insufficient funds, memory mode) and a
rejected SELL (no holdings, SQLite mode) both leave the seeded store intact. -/
theorem c1_witness :
    (executeTrade demoStore 1 "AAPL" Side.BUY 200000 1 "t").2 = demoStore ∧
    (sqliteExecuteTrade demoStore 1 "AAPL" Side.SELL 10 1 "t" false).2
      = demoStore :=
  ⟨(c1_rejection_preserves_store demoStore 1 "AAPL" Side.BUY 200000 1 "t" false
      TradeError.insufficientFunds).1
      (by norm_num [executeTrade, sqliteExecuteTrade, demoStore, lowBalanceStore, initMemoryData, findUser, lookupPortfolio, setUserBalance, setPortfolio, insertPortfolio, removePortfolio, mkTx, transactionsOf, replayLog, replayStep, List.find?, smallBuyStore, oneBuyStore, buyHundredStore, buyTwiceStore, buyFiveStore, liquidatedStore]),
   (c1_rejection_preserves_store demoStore 1 "AAPL" Side.SELL 10 1 "t" false
      TradeError.insufficientHoldings).2
      (by norm_num [executeTrade, sqliteExecuteTrade, demoStore, lowBalanceStore, initMemoryData, findUser, lookupPortfolio, setUserBalance, setPortfolio, insertPortfolio, removePortfolio, mkTx, transactionsOf, replayLog, replayStep, List.find?, smallBuyStore, oneBuyStore, buyHundredStore, buyTwiceStore, buyFiveStore, liquidatedStore])⟩

/-- **C2** (the code evaluated at a failing input): from the seeded store,
BUY 1 "AAPL" @ 1.00 and then SELL 1 "AAPL" @ -200000.00 are both committed,
and the account's balance afterwards is -100001 < 0: the solvency invariant
fails because `executeTrade` accepts a negative price. -/
theorem c2_negative_balance_reachable :
    (executeTrade demoStore 1 "AAPL" Side.BUY 1 1 "t").1
      = Except.ok
          { success := true, balance := 99999,
            transaction := some
              { id := 1, user_id := 1, symbol := "AAPL", type := Side.BUY,
                price := 1, quantity := 1, total_amount := 1,
                timestamp := "t" } } ∧
    (executeTrade smallBuyStore 1 "AAPL" Side.SELL (-200000) 1 "t").1
      = Except.ok
          { success := true, balance := -100001,
            transaction := some
              { id := 2, user_id := 1, symbol := "AAPL", type := Side.SELL,
                price := -200000, quantity := 1, total_amount := -200000,
                timestamp := "t" } } ∧
    findUser (executeTrade smallBuyStore 1 "AAPL" Side.SELL (-200000) 1 "t").2.users 1
      = some { id := 1, username := "demo", password := "h",
               balance := -100001, created_at := "t" } ∧
    (-100001 : ℚ) < 0 := by
  norm_num [executeTrade, sqliteExecuteTrade, demoStore, lowBalanceStore, initMemoryData, findUser, lookupPortfolio, setUserBalance, setPortfolio, insertPortfolio, removePortfolio, mkTx, transactionsOf, replayLog, replayStep, List.find?, smallBuyStore, oneBuyStore, buyHundredStore, buyTwiceStore, buyFiveStore, liquidatedStore]

/-- **C3** (the code evaluated at a failing input): `executeTrade` commits
BUY -3 "TSLA" @ 20.00 and leaves a position entry with quantity -3 in the
store, so an entry exists whose quantity is not > 0. -/
theorem c3_nonpositive_position_reachable :
    (executeTrade demoStore 1 "TSLA" Side.BUY 20 (-3) "t").1
      = Except.ok
          { success := true, balance := 100060,
            transaction := some
              { id := 1, user_id := 1, symbol := "TSLA", type := Side.BUY,
                price := 20, quantity := -3, total_amount := -60,
                timestamp := "t" } } ∧
    lookupPortfolio
        (executeTrade demoStore 1 "TSLA" Side.BUY 20 (-3) "t").2.portfolios
        (1, "TSLA")
      = some { user_id := 1, symbol := "TSLA", quantity := -3,
               average_price := 20, updated_at := "t" } ∧
    ¬ (0 : Int) < -3 := by
  norm_num [executeTrade, sqliteExecuteTrade, demoStore, lowBalanceStore, initMemoryData, findUser, lookupPortfolio, setUserBalance, setPortfolio, insertPortfolio, removePortfolio, mkTx, transactionsOf, replayLog, replayStep, List.find?, smallBuyStore, oneBuyStore, buyHundredStore, buyTwiceStore, buyFiveStore, liquidatedStore]

/-- **C4** (the code evaluated at a failing input): a BUY with quantity -5 at
price 10.00 is not rejected with any validation error: `executeTrade` commits
it, the balance increases from 100000 to 100050, and the store is mutated. -/
theorem c4_negative_quantity_commits :
    (executeTrade demoStore 1 "AAPL" Side.BUY 10 (-5) "t").1
      = Except.ok
          { success := true, balance := 100050,
            transaction := some
              { id := 1, user_id := 1, symbol := "AAPL", type := Side.BUY,
                price := 10, quantity := -5, total_amount := -50,
                timestamp := "t" } } ∧
    (executeTrade demoStore 1 "AAPL" Side.BUY 10 (-5) "t").2 ≠ demoStore := by
  norm_num [executeTrade, sqliteExecuteTrade, demoStore, lowBalanceStore, initMemoryData, findUser, lookupPortfolio, setUserBalance, setPortfolio, insertPortfolio, removePortfolio, mkTx, transactionsOf, replayLog, replayStep, List.find?, smallBuyStore, oneBuyStore, buyHundredStore, buyTwiceStore, buyFiveStore, liquidatedStore]

/-- **C5** counterexample: `executeTrade` commits a BUY of quantity 0 on a
symbol with no existing position, and the resulting position's average cost is
not the price (the JS code computes `0/0`). -/
theorem c5_counterexample :
    (executeTrade demoStore 1 "GOOG" Side.BUY 10 0 "t").1
      = Except.ok
          { success := true, balance := 100000,
            transaction := some
              { id := 1, user_id := 1, symbol := "GOOG", type := Side.BUY,
                price := 10, quantity := 0, total_amount := 0,
                timestamp := "t" } } ∧
    ¬ (lookupPortfolio
          (executeTrade demoStore 1 "GOOG" Side.BUY 10 0 "t").2.portfolios
          (1, "GOOG")).map (fun p => p.average_price) = some 10 := by
  norm_num [executeTrade, sqliteExecuteTrade, demoStore, lowBalanceStore, initMemoryData, findUser, lookupPortfolio, setUserBalance, setPortfolio, insertPortfolio, removePortfolio, mkTx, transactionsOf, replayLog, replayStep, List.find?, smallBuyStore, oneBuyStore, buyHundredStore, buyTwiceStore, buyFiveStore, liquidatedStore]

/-- **C5** (amended): on a committed BUY with an existing position the
resulting entry has quantity `oldQty + qty` and average cost
`(oldQty × oldAvg + price × qty) / (oldQty + qty)`; on a committed BUY with no
existing position and quantity ≠ 0 the resulting entry has the requested
quantity and average cost = price; concretely, BUY 10 @ 100.00 then
BUY 10 @ 200.00 on one symbol yields quantity 20 and average cost 150.00. -/
theorem c5_weighted_average (store : Store) (uid : Nat) (sym : String)
    (price : ℚ) (qty : Int) (now : String) (user : User)
    (hu : findUser store.users uid = some user)
    (hb : ¬ user.balance < price * (qty : ℚ)) :
    (∀ p, lookupPortfolio store.portfolios (uid, sym) = some p →
      lookupPortfolio
          (executeTrade store uid sym Side.BUY price qty now).2.portfolios
          (uid, sym)
        = some { p with
            quantity := p.quantity + qty,
            average_price := ((p.quantity : ℚ) * p.average_price
              + price * (qty : ℚ)) / ((p.quantity + qty : Int) : ℚ),
            updated_at := now }) ∧
    (lookupPortfolio store.portfolios (uid, sym) = none → qty ≠ 0 →
      lookupPortfolio
          (executeTrade store uid sym Side.BUY price qty now).2.portfolios
          (uid, sym)
        = some { user_id := uid, symbol := sym, quantity := qty,
                 average_price := price, updated_at := now }) ∧
    lookupPortfolio buyTwiceStore.portfolios (1, "X")
      = some { user_id := 1, symbol := "X", quantity := 20,
               average_price := 150, updated_at := "t" } := by
  refine ⟨?_, ?_, by norm_num [executeTrade, sqliteExecuteTrade, demoStore, lowBalanceStore, initMemoryData, findUser, lookupPortfolio, setUserBalance, setPortfolio, insertPortfolio, removePortfolio, mkTx, transactionsOf, replayLog, replayStep, List.find?, smallBuyStore, oneBuyStore, buyHundredStore, buyTwiceStore, buyFiveStore, liquidatedStore]⟩
  · intro p hp
    rw [exec_buy_existing hu hb hp]
    have hset := lookupPortfolio_set_self store.portfolios (uid, sym)
      { p with
        quantity := p.quantity + qty,
        average_price := ((p.quantity : ℚ) * p.average_price
          + price * (qty : ℚ)) / ((p.quantity + qty : Int) : ℚ),
        updated_at := now }
    rw [hp] at hset
    exact hset
  · intro hp hq
    rw [exec_buy_new hu hb hp]
    have hlk := lookupPortfolio_insert_self hp
      { user_id := uid, symbol := sym, quantity := qty,
        average_price := price * (qty : ℚ) / (qty : ℚ), updated_at := now }
    simp only [insertPortfolio] at hlk
    have hpr : price * (qty : ℚ) / (qty : ℚ) = price :=
      mul_div_cancel_right₀ price (Int.cast_ne_zero.mpr hq)
    rw [hpr] at hlk
    rw [← hpr] at hlk
    simpa [hpr] using hlk

/-- Witness for C5: the first BUY of the concrete scenario (no existing
position) yields quantity 10 and average cost 100.00. -/
theorem c5_witness :
    lookupPortfolio buyHundredStore.portfolios (1, "X")
      = some { user_id := 1, symbol := "X", quantity := 10,
               average_price := 100, updated_at := "t" } :=
  (c5_weighted_average demoStore 1 "X" 100 10 "t"
      { id := 1, username := "demo", password := "h", balance := 100000,
        created_at := "t" }
      (by norm_num [executeTrade, sqliteExecuteTrade, demoStore, lowBalanceStore, initMemoryData, findUser, lookupPortfolio, setUserBalance, setPortfolio, insertPortfolio, removePortfolio, mkTx, transactionsOf, replayLog, replayStep, List.find?, smallBuyStore, oneBuyStore, buyHundredStore, buyTwiceStore, buyFiveStore, liquidatedStore]) (by norm_num)).2.1 (by norm_num [executeTrade, sqliteExecuteTrade, demoStore, lowBalanceStore, initMemoryData, findUser, lookupPortfolio, setUserBalance, setPortfolio, insertPortfolio, removePortfolio, mkTx, transactionsOf, replayLog, replayStep, List.find?, smallBuyStore, oneBuyStore, buyHundredStore, buyTwiceStore, buyFiveStore, liquidatedStore]) (by norm_num)

/-- **C6** counterexample: for the same pre-store and the same trade request
the two backends do not produce the same result object: the transient result
carries the created transaction record and the SQLite result does not. -/
theorem c6_counterexample :
    (executeTrade demoStore 1 "MSFT" Side.BUY 10 1 "t").1
      ≠ (sqliteExecuteTrade demoStore 1 "MSFT" Side.BUY 10 1 "t" false).1 := by
  norm_num [executeTrade, sqliteExecuteTrade, demoStore, lowBalanceStore, initMemoryData, findUser, lookupPortfolio, setUserBalance, setPortfolio, insertPortfolio, removePortfolio, mkTx, transactionsOf, replayLog, replayStep, List.find?, smallBuyStore, oneBuyStore, buyHundredStore, buyTwiceStore, buyFiveStore, liquidatedStore]
  simp

/-- **C6** (amended): for every pre-store and every request with quantity ≠ 0,
the two backends produce the same post-store and the same outcome with the
same reported balance; only the presence of the transaction record in the
success value differs. -/
theorem c6_backends_agree (store : Store) (uid : Nat) (sym : String) (ty : Side)
    (price : ℚ) (qty : Int) (now : String) (hq : qty ≠ 0) :
    (executeTrade store uid sym ty price qty now).2
      = (sqliteExecuteTrade store uid sym ty price qty now false).2 ∧
    (executeTrade store uid sym ty price qty now).1.map (fun r => r.balance)
      = (sqliteExecuteTrade store uid sym ty price qty now false).1.map
          (fun r => r.balance) := by
  rcases hu : findUser store.users uid with _ | user
  · rw [exec_noUser hu, sql_noUser hu]
    exact ⟨rfl, rfl⟩
  · cases ty with
    | BUY =>
      by_cases hb : user.balance < price * (qty : ℚ)
      · rw [exec_buy_reject hu hb, sql_buy_reject hu hb]
        exact ⟨rfl, rfl⟩
      · rcases hp : lookupPortfolio store.portfolios (uid, sym) with _ | p
        · rw [exec_buy_new hu hb hp, sql_buy_new hu hb hp]
          have hpr : price * (qty : ℚ) / (qty : ℚ) = price :=
            mul_div_cancel_right₀ price (Int.cast_ne_zero.mpr hq)
          simp [hpr, Except.map]
        · rw [exec_buy_existing hu hb hp, sql_buy_existing hu hb hp]
          exact ⟨rfl, rfl⟩
    | SELL =>
      rcases hp : lookupPortfolio store.portfolios (uid, sym) with _ | p
      · rw [exec_sell_noPos hu hp, sql_sell_noPos hu hp]
        exact ⟨rfl, rfl⟩
      · by_cases hqq : p.quantity < qty
        · rw [exec_sell_reject hu hp hqq, sql_sell_reject hu hp hqq]
          exact ⟨rfl, rfl⟩
        · by_cases hz : p.quantity - qty = 0
          · rw [exec_sell_full hu hp hqq hz, sql_sell_full hu hp hqq hz]
            exact ⟨rfl, rfl⟩
          · rw [exec_sell_decrement hu hp hqq hz, sql_sell_decrement hu hp hqq hz]
            exact ⟨rfl, rfl⟩

/-- Witness for C6: both backends agree on post-store and balance for
BUY 1 "MSFT" @ 10.00 on the seeded store. -/
theorem c6_witness :
    (executeTrade demoStore 1 "MSFT" Side.BUY 10 1 "t").2
      = (sqliteExecuteTrade demoStore 1 "MSFT" Side.BUY 10 1 "t" false).2 ∧
    (executeTrade demoStore 1 "MSFT" Side.BUY 10 1 "t").1.map
        (fun r => r.balance)
      = (sqliteExecuteTrade demoStore 1 "MSFT" Side.BUY 10 1 "t" false).1.map
          (fun r => r.balance) :=
  c6_backends_agree demoStore 1 "MSFT" Side.BUY 10 1 "t" (by norm_num)

/-- **C7.** For a BUY on an existing account, `executeTrade` rejects with
InsufficientFunds iff the balance is strictly below price × quantity, and on
such a rejection the whole store (balance, positions, transaction log) is
unchanged. -/
theorem c7_insufficient_funds_iff (store : Store) (uid : Nat) (sym : String)
    (price : ℚ) (qty : Int) (now : String) (user : User)
    (hu : findUser store.users uid = some user) :
    ((executeTrade store uid sym Side.BUY price qty now).1
        = Except.error TradeError.insufficientFunds
      ↔ user.balance < price * (qty : ℚ)) ∧
    (user.balance < price * (qty : ℚ) →
      (executeTrade store uid sym Side.BUY price qty now).2 = store) := by
  constructor
  · constructor
    · intro h
      by_cases hb : user.balance < price * (qty : ℚ)
      · exact hb
      · exfalso
        rcases hp : lookupPortfolio store.portfolios (uid, sym) with _ | p
        · rw [exec_buy_new hu hb hp] at h
          simp at h
        · rw [exec_buy_existing hu hb hp] at h
          simp at h
    · intro hb
      rw [exec_buy_reject hu hb]
  · intro hb
    rw [exec_buy_reject hu hb]

/-- Witness for C7: with balance 50.00, BUY 1 @ 100.00 is rejected with
InsufficientFunds and the store is unchanged. -/
theorem c7_witness :
    ((executeTrade lowBalanceStore 1 "AAPL" Side.BUY 100 1 "t").1
      = Except.error TradeError.insufficientFunds) ∧
    (executeTrade lowBalanceStore 1 "AAPL" Side.BUY 100 1 "t").2
      = lowBalanceStore := by
  have h := c7_insufficient_funds_iff lowBalanceStore 1 "AAPL" 100 1 "t"
    { id := 1, username := "demo", password := "h", balance := 50,
      created_at := "t" }
    (by norm_num [executeTrade, sqliteExecuteTrade, demoStore, lowBalanceStore, initMemoryData, findUser, lookupPortfolio, setUserBalance, setPortfolio, insertPortfolio, removePortfolio, mkTx, transactionsOf, replayLog, replayStep, List.find?, smallBuyStore, oneBuyStore, buyHundredStore, buyTwiceStore, buyFiveStore, liquidatedStore])
  exact ⟨h.1.mpr (by norm_num), h.2 (by norm_num)⟩

/-- **C8** counterexample: BUY 5 @ 10.00 then SELL 5 @ 12.00 changes the
balance by +10.00 net over the two trades (final balance 100010), not by
+60.00. -/
theorem c8_counterexample :
    findUser liquidatedStore.users 1
      = some { id := 1, username := "demo", password := "h",
               balance := 100010, created_at := "t" } ∧
    (100010 : ℚ) ≠ 100000 + 60 := by
  norm_num [executeTrade, sqliteExecuteTrade, demoStore, lowBalanceStore, initMemoryData, findUser, lookupPortfolio, setUserBalance, setPortfolio, insertPortfolio, removePortfolio, mkTx, transactionsOf, replayLog, replayStep, List.find?, smallBuyStore, oneBuyStore, buyHundredStore, buyTwiceStore, buyFiveStore, liquidatedStore]

/-- **C8** (amended): a committed SELL of a position's entire quantity removes
the entry (a subsequent lookup finds no entry) and adds exactly
price × quantity to the balance; concretely, BUY 5 @ 10.00 then SELL 5 @ 12.00
removes the position and yields balance 100010 = 99950 + 60 — the SELL adds
60.00, the net change over the two trades is +10.00. -/
theorem c8_full_liquidation (store : Store) (uid : Nat) (sym : String)
    (price : ℚ) (qty : Int) (now : String) (user : User) (p : Position)
    (hnd : (store.portfolios.map (fun e => e.1)).Nodup)
    (hu : findUser store.users uid = some user)
    (hp : lookupPortfolio store.portfolios (uid, sym) = some p)
    (hq : p.quantity = qty) :
    lookupPortfolio
        (executeTrade store uid sym Side.SELL price qty now).2.portfolios
        (uid, sym) = none ∧
    findUser (executeTrade store uid sym Side.SELL price qty now).2.users uid
      = some { user with balance := user.balance + price * (qty : ℚ) } ∧
    (executeTrade store uid sym Side.SELL price qty now).1
      = Except.ok
          { success := true, balance := user.balance + price * (qty : ℚ),
            transaction := some (mkTx store uid sym Side.SELL price qty now) } ∧
    lookupPortfolio liquidatedStore.portfolios (1, "Y") = none ∧
    findUser liquidatedStore.users 1
      = some { id := 1, username := "demo", password := "h",
               balance := 100010, created_at := "t" } ∧
    (100010 : ℚ) = 99950 + 60 := by
  have hqq : ¬ p.quantity < qty := by
    rw [hq]
    exact lt_irrefl qty
  have hz : p.quantity - qty = 0 := by
    rw [hq]
    exact sub_self qty
  rw [exec_sell_full hu hp hqq hz]
  refine ⟨lookupPortfolio_remove_self hnd (uid, sym), ?_, rfl,
    by norm_num [executeTrade, sqliteExecuteTrade, demoStore, lowBalanceStore, initMemoryData, findUser, lookupPortfolio, setUserBalance, setPortfolio, insertPortfolio, removePortfolio, mkTx, transactionsOf, replayLog, replayStep, List.find?, smallBuyStore, oneBuyStore, buyHundredStore, buyTwiceStore, buyFiveStore, liquidatedStore], by norm_num [executeTrade, sqliteExecuteTrade, demoStore, lowBalanceStore, initMemoryData, findUser, lookupPortfolio, setUserBalance, setPortfolio, insertPortfolio, removePortfolio, mkTx, transactionsOf, replayLog, replayStep, List.find?, smallBuyStore, oneBuyStore, buyHundredStore, buyTwiceStore, buyFiveStore, liquidatedStore], by norm_num⟩
  rw [findUser_setUserBalance, hu]
  rfl

/-- Witness for C8: liquidating the 5-share "Y" position of `buyFiveStore`
at 12.00. -/
theorem c8_witness :
    lookupPortfolio
        (executeTrade buyFiveStore 1 "Y" Side.SELL 12 5 "t").2.portfolios
        (1, "Y") = none ∧
    findUser (executeTrade buyFiveStore 1 "Y" Side.SELL 12 5 "t").2.users 1
      = some { id := 1, username := "demo", password := "h",
               balance := 99950 + 12 * ((5 : Int) : ℚ), created_at := "t" } ∧
    (executeTrade buyFiveStore 1 "Y" Side.SELL 12 5 "t").1
      = Except.ok
          { success := true, balance := 99950 + 12 * ((5 : Int) : ℚ),
            transaction := some (mkTx buyFiveStore 1 "Y" Side.SELL 12 5 "t") } ∧
    lookupPortfolio liquidatedStore.portfolios (1, "Y") = none ∧
    findUser liquidatedStore.users 1
      = some { id := 1, username := "demo", password := "h",
               balance := 100010, created_at := "t" } ∧
    (100010 : ℚ) = 99950 + 60 :=
  c8_full_liquidation buyFiveStore 1 "Y" 12 5 "t"
    { id := 1, username := "demo", password := "h", balance := 99950,
      created_at := "t" }
    { user_id := 1, symbol := "Y", quantity := 5, average_price := 10,
      updated_at := "t" }
    (by norm_num [executeTrade, sqliteExecuteTrade, demoStore, lowBalanceStore, initMemoryData, findUser, lookupPortfolio, setUserBalance, setPortfolio, insertPortfolio, removePortfolio, mkTx, transactionsOf, replayLog, replayStep, List.find?, smallBuyStore, oneBuyStore, buyHundredStore, buyTwiceStore, buyFiveStore, liquidatedStore]) (by norm_num [executeTrade, sqliteExecuteTrade, demoStore, lowBalanceStore, initMemoryData, findUser, lookupPortfolio, setUserBalance, setPortfolio, insertPortfolio, removePortfolio, mkTx, transactionsOf, replayLog, replayStep, List.find?, smallBuyStore, oneBuyStore, buyHundredStore, buyTwiceStore, buyFiveStore, liquidatedStore]) (by norm_num [executeTrade, sqliteExecuteTrade, demoStore, lowBalanceStore, initMemoryData, findUser, lookupPortfolio, setUserBalance, setPortfolio, insertPortfolio, removePortfolio, mkTx, transactionsOf, replayLog, replayStep, List.find?, smallBuyStore, oneBuyStore, buyHundredStore, buyTwiceStore, buyFiveStore, liquidatedStore]) (by norm_num)

/-- **C9** counterexample: after BUY 1 "AAPL" @ 10.00 on the seeded account,
replaying the account's full transaction log from an empty (zero) balance and
an empty position set yields balance -10, while the account's current balance
is 99990 — the balance is not reproduced. -/
theorem c9_counterexample :
    (replayLog 0 (transactionsOf oneBuyStore 1)).1 = -10 ∧
    findUser oneBuyStore.users 1
      = some { id := 1, username := "demo", password := "h",
               balance := 99990, created_at := "t" } ∧
    ((-10 : ℚ) ≠ 99990) := by
  norm_num [executeTrade, sqliteExecuteTrade, demoStore, lowBalanceStore, initMemoryData, findUser, lookupPortfolio, setUserBalance, setPortfolio, insertPortfolio, removePortfolio, mkTx, transactionsOf, replayLog, replayStep, List.find?, smallBuyStore, oneBuyStore, buyHundredStore, buyTwiceStore, buyFiveStore, liquidatedStore]

/-- **C10.** Every transient-mode account starts with balance exactly
100000.00 — the seeded demo account and every account returned by
`createUser` — and transient account ids are assigned sequentially as
(current number of users) + 1. -/
theorem c10_initial_balance_and_ids (ph t0 : String) (store : Store)
    (uname hash now : String) :
    (initMemoryData ph t0).users
      = [{ id := 1, username := "demo", password := ph, balance := 100000,
           created_at := t0 }] ∧
    (createUser store uname hash now).1.balance = 100000 ∧
    (createUser store uname hash now).1.id = store.users.length + 1 ∧
    (createUser store uname hash now).2.users
      = store.users ++ [(createUser store uname hash now).1] :=
  ⟨rfl, rfl, rfl, rfl⟩

/-- **C9** (amended): for every store reachable from the seeded transient
store by registrations and trades, and every account in it, replaying the
account's full transaction log in order — applying each record's side, price
and quantity — starting from the account's initial balance 100000 and an
empty position set deterministically reproduces the account's current balance
and all of its current positions.  (Replay from an empty zero balance
reproduces the positions and the net balance change, but not the balance,
because every account starts at 100000.) -/
theorem c9_replay_reconstruction (ph t0 : String) (ops : List Op) (u : User)
    (hu : u ∈ (runOps (initMemoryData ph t0) ops).users) :
    replayLog 100000 (transactionsOf (runOps (initMemoryData ph t0) ops) u.id)
      = (u.balance, positionsOf (runOps (initMemoryData ph t0) ops) u.id) :=
  (goodStore_runOps (goodStore_init ph t0) ops).2.2.2.2 u hu

/-- Witness for C9: after BUY 1 "AAPL" @ 10.00, replaying the demo account's
log from balance 100000 reproduces its balance 99990 and its single
position. -/
theorem c9_witness :
    replayLog 100000
        (transactionsOf (runOps (initMemoryData "h" "t") oneBuyOps) 1)
      = (99990, positionsOf (runOps (initMemoryData "h" "t") oneBuyOps) 1) := by
  have h := c9_replay_reconstruction "h" "t" oneBuyOps
    { id := 1, username := "demo", password := "h", balance := 99990,
      created_at := "t" }
    (by norm_num [runOps, applyOp, applyTrade, executeTrade, initMemoryData,
      findUser, lookupPortfolio, setUserBalance, setPortfolio, insertPortfolio,
      mkTx, List.find?, oneBuyOps])
  exact h

end StockSim
